import Mathlib

/-
Shallow embedding of src/src/strategies/hyperliquid_spot_perp_arbitrage.py.

Python floats are modelled as rationals (ℚ); the arithmetic of the strategy
is plain field arithmetic, so ℚ captures the intended real-number semantics
exactly.  Python `None` becomes `Option.none`.  The module is purely
sequential; `time.sleep` pauses and order submissions are recorded as
explicit actions so that theorems can speak about what a call emits.
-/

/-- One side entry of an order book: a (price, size) pair, and a book is the
pair of bid and ask lists, mirroring the Python dicts
`{"bids": [[p, v], ...], "asks": [[p, v], ...]}`. -/
structure OrderBook where
  bids : List (ℚ × ℚ)
  asks : List (ℚ × ℚ)
deriving DecidableEq

/-- The per-asset market data dict produced by
`SignalCalculator.fetch_market_data`.  The two order-book fields are
`Option`s because a Python dict value can be `None`/missing; the mock store
always populates them. -/
structure MarketData where
  assetSymbol : String
  spotPrice : ℚ
  perpPrice : ℚ
  nextFundingRateHourly : ℚ
  spotOrderBook : Option OrderBook
  perpOrderBook : Option OrderBook
deriving DecidableEq

/-- `SignalCalculator`: its only data is the `mock_data_store` mapping asset
symbols to market data (the api client field is never consulted by the
decision logic). -/
structure SignalCalculator where
  mockDataStore : List (String × MarketData)
deriving DecidableEq

/-- `self.ROUND_TRIP_FEES_PERCENT = 0.2` (0.2 = 1/5). -/
def ROUND_TRIP_FEES_PERCENT : ℚ := 1/5

/-- Key lookup in the mock data store (Python dict access). -/
def storeLookup : List (String × MarketData) → String → Option MarketData
  | [], _ => none
  | (k, v) :: rest, a => if a = k then some v else storeLookup rest a

/-- `SignalCalculator.fetch_market_data`: looks the symbol up in the mock
data store, copies the record and stamps `asset_symbol`; returns `None` for
unknown symbols. -/
def fetch_market_data (sc : SignalCalculator) (asset_symbol : String) :
    Option MarketData :=
  match storeLookup sc.mockDataStore asset_symbol with
  | some d => some { d with assetSymbol := asset_symbol }
  | none => none

/-- `SignalCalculator._check_liquidity`.  Fails closed on a missing book, an
empty bid or ask side, or a zero reference price; otherwise requires both
the ask volume within `price * (1 + tol)` and the bid volume within
`price * (1 - tol)` to cover `trade_amount_usd / price`. -/
def check_liquidity (order_book : Option OrderBook)
    (trade_amount_usd price slippage_tolerance : ℚ) : Bool :=
  match order_book with
  | none => false
  | some ob =>
    if ob.bids = [] ∨ ob.asks = [] ∨ price = 0 then false
    else
      let trade_amount_asset := trade_amount_usd / price
      let ask_vol :=
        ((ob.asks.filter (fun pv => pv.1 ≤ price * (1 + slippage_tolerance))).map
          (fun pv => pv.2)).sum
      let bid_vol :=
        ((ob.bids.filter (fun pv => pv.1 ≥ price * (1 - slippage_tolerance))).map
          (fun pv => pv.2)).sum
      decide (trade_amount_asset ≤ ask_vol) && decide (trade_amount_asset ≤ bid_vol)

/-- The default slippage tolerance of `_check_liquidity` (0.005 = 1/200). -/
def DEFAULT_SLIPPAGE_TOLERANCE : ℚ := 1/200

/-- `SignalCalculator.calculate_opportunity_score`.  Returns
`(none, none)` on missing data or a failed liquidity check on either book;
the `spot_price == 0` branch returns `(0.0, 0.0)`; otherwise basis percent
and `funding + basis - fees`. -/
def calculate_opportunity_score (market_data : Option MarketData)
    (trade_amount_usd : ℚ) : Option ℚ × Option ℚ :=
  match market_data with
  | none => (none, none)
  | some md =>
    if ¬ (check_liquidity md.spotOrderBook trade_amount_usd md.spotPrice
            DEFAULT_SLIPPAGE_TOLERANCE = true) ∨
       ¬ (check_liquidity md.perpOrderBook trade_amount_usd md.perpPrice
            DEFAULT_SLIPPAGE_TOLERANCE = true) then
      (none, none)
    else if md.spotPrice = 0 then (some 0, some 0)
    else
      let basis_percent := (md.perpPrice - md.spotPrice) / md.spotPrice * 100
      (some (md.nextFundingRateHourly + basis_percent - ROUND_TRIP_FEES_PERCENT),
       some basis_percent)

/-- `score > best_score` where `best_score` may still be the initial
`-math.inf` (encoded `none`): every real score exceeds `-inf`. -/
def gtBest (s : ℚ) (best : Option ℚ) : Bool :=
  match best with
  | none => true
  | some b => decide (b < s)

/-- `score > threshold` where `score` may be the `-math.inf` sentinel
(encoded `none`): `-inf` never exceeds a real threshold. -/
def scoreGtB (score : Option ℚ) (threshold : ℚ) : Bool :=
  match score with
  | none => false
  | some s => decide (threshold < s)

/-- The running best of `find_best_opportunity`: `bestScore = none` encodes
the Python initial value `-math.inf`. -/
structure BestOpportunity where
  bestAsset : Option String
  bestScore : Option ℚ
  bestMarketData : Option MarketData
  bestBasis : Option ℚ
deriving DecidableEq

/-- The loop body of `find_best_opportunity`: skip the excluded symbol,
skip symbols with no data or no usable score, keep the strict maximum
(first seen wins on ties). -/
def find_best_aux (sc : SignalCalculator) (trade_amount_usd : ℚ)
    (current_asset_symbol : Option String) (acc : BestOpportunity) :
    List String → BestOpportunity
  | [] => acc
  | asset :: rest =>
    if some asset = current_asset_symbol then
      find_best_aux sc trade_amount_usd current_asset_symbol acc rest
    else
      match fetch_market_data sc asset with
      | none => find_best_aux sc trade_amount_usd current_asset_symbol acc rest
      | some md =>
        match calculate_opportunity_score (some md) trade_amount_usd with
        | (some s, basis) =>
          if gtBest s acc.bestScore then
            find_best_aux sc trade_amount_usd current_asset_symbol
              ⟨some asset, some s, some md, basis⟩ rest
          else
            find_best_aux sc trade_amount_usd current_asset_symbol acc rest
        | (none, _) => find_best_aux sc trade_amount_usd current_asset_symbol acc rest

/-- `SignalCalculator.find_best_opportunity`: starts from the sentinel
`(None, -inf, None, None)` and folds the candidate list. -/
def find_best_opportunity (sc : SignalCalculator) (assets : List String)
    (trade_amount_usd : ℚ) (current_asset_symbol : Option String) :
    BestOpportunity :=
  find_best_aux sc trade_amount_usd current_asset_symbol ⟨none, none, none, none⟩ assets

/-- The observable effects of `execute_twap_order`: a market order on the
spot leg, a market order on the perpetual leg, or a `time.sleep` pause of
the given number of seconds.  (The asset symbol only feeds log strings and
order routing, never control flow, so it is not recorded.) -/
inductive TwapAction where
  | spotOrder (side : String) (amount_usd : ℚ)
  | perpOrder (side : String) (amount_usd : ℚ)
  | pause (seconds : ℚ)
deriving DecidableEq

/-- The two leg submissions of one TWAP slice: `ENTRY` buys spot and sells
perp, `EXIT` sells spot and buys perp (the only two callers pass exactly
these two strings). -/
def sliceActions (order_type : String) (amount_usd : ℚ) : List TwapAction :=
  if order_type = "ENTRY" then
    [TwapAction.spotOrder "buy" amount_usd, TwapAction.perpOrder "sell" amount_usd]
  else
    [TwapAction.spotOrder "sell" amount_usd, TwapAction.perpOrder "buy" amount_usd]

/-- The `for i in range(num_intervals)` loop of `execute_twap_order`,
parameterised by the number of iterations still to run.  An unknown
`order_type` is detected inside the first iteration and aborts before any
submission; the inter-slice pause is emitted only when another iteration
follows (`i < num_intervals - 1`). -/
def twapLoop (order_type : String) (amount_per_interval_usd interval_delay_seconds : ℚ) :
    Nat → Bool × List TwapAction
  | 0 => (true, [])
  | Nat.succ remaining =>
    if order_type = "ENTRY" ∨ order_type = "EXIT" then
      let acts := sliceActions order_type amount_per_interval_usd
      let pauseActs :=
        if 0 < remaining then [TwapAction.pause interval_delay_seconds] else []
      let next := twapLoop order_type amount_per_interval_usd interval_delay_seconds remaining
      (next.1, acts ++ pauseActs ++ next.2)
    else (false, [])

/-- `execute_twap_order`: validates `num_intervals > 0` and
`duration_minutes > 0`, splits the notional into `num_intervals` equal
slices and the duration into `(duration_minutes * 60) / num_intervals`
second pauses, and runs the slice loop.  Returns the success flag together
with the emitted actions. -/
def execute_twap_order (order_type : String)
    (total_amount_usd duration_minutes : ℚ) (num_intervals : ℤ) :
    Bool × List TwapAction :=
  if num_intervals ≤ 0 ∨ duration_minutes ≤ 0 then (false, [])
  else
    twapLoop order_type (total_amount_usd / (num_intervals : ℚ))
      (duration_minutes * 60 / (num_intervals : ℚ)) num_intervals.toNat

/-- `SpotPerpArbitrageBot._execute_immediate_exit_trade`: the body only
logs the two simulated immediate market orders and returns `True`
unconditionally. -/
def execute_immediate_exit_trade (asset_symbol reason : String) : Bool :=
  true

/-- The controller state string: `"SEARCHING"` or `"POSITION_OPEN"`. -/
inductive BotPhase where
  | searching
  | positionOpen
deriving DecidableEq

/-- `self.current_position`: the dict built by `_execute_entry_trade`, plus
the `current_score_of_position` key added later by `run_cycle`.  The entry
score is kept as an `Option ℚ` because Python stores the raw float
returned by the search (whose type admits `-inf`, encoded `none`). -/
structure Position where
  assetSymbol : String
  entrySpotPrice : ℚ
  entryPerpPrice : ℚ
  entryBasisPercentage : ℚ
  entryScore : Option ℚ
  marketDataAtEntry : MarketData
  currentScoreOfPosition : Option ℚ
deriving DecidableEq

/-- The mutable fields of `SpotPerpArbitrageBot` that `run_cycle` reads and
writes: `current_state`, `current_position`, `entry_timestamp`. -/
structure BotState where
  currentState : BotPhase
  currentPosition : Option Position
  entryTimestamp : Option ℚ
deriving DecidableEq

/-- The configuration fields of `SpotPerpArbitrageBot.__init__` that the
cycle logic consults. -/
structure BotConfig where
  assetsToMonitor : List String
  tradeAmountUsd : ℚ
  entryThreshold : ℚ
  rotationThreshold : ℚ
  positionDecayThreshold : ℚ
  minHoldingPeriodSeconds : ℚ
  twapDurationMinutes : ℚ
  twapNumIntervals : ℤ
  stopLossBasisThresholdPercentage : ℚ
deriving DecidableEq

/-- The outcomes of the TWAP helper calls made inside one cycle.  In the
source both are computed by `execute_twap_order`; keeping them as explicit
inputs lets theorems also discuss the hypothetical outcome combinations
the spec talks about.  `actualExecEnv` below instantiates them exactly as
the source does. -/
structure ExecEnv where
  twapEntryOk : Bool
  twapExitOk : Bool
deriving DecidableEq

/-- The outcome values `run_cycle` actually produces: every TWAP trade
helper calls `execute_twap_order` with the configured notional, duration
and interval count (`_execute_entry_trade` with `"ENTRY"`,
`_execute_exit_trade` with `"EXIT"`). -/
def actualExecEnv (cfg : BotConfig) : ExecEnv :=
  { twapEntryOk :=
      (execute_twap_order "ENTRY" cfg.tradeAmountUsd cfg.twapDurationMinutes
        cfg.twapNumIntervals).1
    twapExitOk :=
      (execute_twap_order "EXIT" cfg.tradeAmountUsd cfg.twapDurationMinutes
        cfg.twapNumIntervals).1 }

/-- The unique terminal log line of each `run_cycle` path, used to name the
branch a cycle took.  The `Bool` on exit events records whether the exit
trade reported success. -/
inductive CycleEvent where
  | noOpportunity
  | entrySucceeded (asset : String)
  | entryFailed (asset : String)
  | inconsistentStateReset
  | criticalDataFetchExit (asset : String) (exitOk : Bool)
  | stopLossTriggered (asset : String) (exitOk : Bool)
  | holdingMinPeriod (asset : String)
  | liquidityDriedExit (asset : String) (exitOk : Bool)
  | rotationAbortedExitFailed (oldAsset : String)
  | rotationEntryFailedAfterExit (oldAsset newAsset : String)
  | rotationSucceeded (oldAsset newAsset : String)
  | positionDecayedExit (asset : String) (exitOk : Bool)
  | holdingAcceptable (asset : String)
deriving DecidableEq

/-- `self.current_state = "SEARCHING"; self.current_position = None;
self.entry_timestamp = None` — the reset performed by every exit path. -/
def resetBot : BotState :=
  { currentState := BotPhase.searching
    currentPosition := none
    entryTimestamp := none }

/-- The position dict created by `_execute_entry_trade` on success. -/
def entryPosition (asset_symbol : String) (market_data_at_entry : MarketData)
    (entry_score : Option ℚ) (entry_basis_percentage : ℚ) : Position :=
  { assetSymbol := asset_symbol
    entrySpotPrice := market_data_at_entry.spotPrice
    entryPerpPrice := market_data_at_entry.perpPrice
    entryBasisPercentage := entry_basis_percentage
    entryScore := entry_score
    marketDataAtEntry := market_data_at_entry
    currentScoreOfPosition := none }

/-- Lines 287-292 of `run_cycle`: the decay check reached when no rotation
was triggered.  `b1` is the bot state after the refreshed score was stored
on the position. -/
def runCycleDecay (cfg : BotConfig) (env : ExecEnv) (b1 : BotState)
    (pos_asset : String) (current_score : ℚ) : BotState × CycleEvent :=
  if current_score < cfg.positionDecayThreshold then
    if env.twapExitOk then (resetBot, CycleEvent.positionDecayedExit pos_asset true)
    else (b1, CycleEvent.positionDecayedExit pos_asset false)
  else (b1, CycleEvent.holdingAcceptable pos_asset)

/-- Lines 275-292 of `run_cycle`: search for an alternative excluding the
held asset; rotate when its score beats `current_score + rotation_threshold`
(`_execute_rotation_trade`: TWAP exit first, TWAP entry only if the exit
succeeded, state/position untouched when either fails); otherwise fall
through to the decay check. -/
def runCycleRotationOrDecay (sc : SignalCalculator) (cfg : BotConfig)
    (env : ExecEnv) (b1 : BotState) (pos_asset : String) (current_score : ℚ)
    (now : ℚ) : BotState × CycleEvent :=
  let alt := find_best_opportunity sc cfg.assetsToMonitor cfg.tradeAmountUsd
    (some pos_asset)
  match alt.bestAsset, alt.bestMarketData, alt.bestBasis with
  | some altAsset, some altMd, some altBasis =>
    if altAsset ≠ "" ∧
        scoreGtB alt.bestScore (current_score + cfg.rotationThreshold) then
      if env.twapExitOk then
        if env.twapEntryOk then
          ({ currentState := BotPhase.positionOpen
             currentPosition := some (entryPosition altAsset altMd alt.bestScore altBasis)
             entryTimestamp := some now },
           CycleEvent.rotationSucceeded pos_asset altAsset)
        else (b1, CycleEvent.rotationEntryFailedAfterExit pos_asset altAsset)
      else (b1, CycleEvent.rotationAbortedExitFailed pos_asset)
    else runCycleDecay cfg env b1 pos_asset current_score
  | _, _, _ => runCycleDecay cfg env b1 pos_asset current_score

/-- Lines 242-292 of `run_cycle`: the `POSITION_OPEN` branch once a fresh
snapshot for the held asset is available — stop-loss check first, then the
minimum-holding-period guard, then the refreshed score (liquidity-dried
exit when absent), then rotation/decay. -/
def runCycleOpenFresh (sc : SignalCalculator) (cfg : BotConfig) (env : ExecEnv)
    (b : BotState) (pos : Position) (ts : ℚ) (fresh_md : MarketData) (now : ℚ) :
    BotState × CycleEvent :=
  let entry_basis_value := pos.entryPerpPrice - pos.entrySpotPrice
  let current_basis_value := fresh_md.perpPrice - fresh_md.spotPrice
  let basis_change_usd := current_basis_value - entry_basis_value
  let basis_change_percentage :=
    if pos.entrySpotPrice ≠ 0 then basis_change_usd / pos.entrySpotPrice * 100 else 0
  if cfg.stopLossBasisThresholdPercentage < basis_change_percentage then
    if execute_immediate_exit_trade pos.assetSymbol "StopLossHit" then
      (resetBot, CycleEvent.stopLossTriggered pos.assetSymbol true)
    else (b, CycleEvent.stopLossTriggered pos.assetSymbol false)
  else if now - ts < cfg.minHoldingPeriodSeconds then
    (b, CycleEvent.holdingMinPeriod pos.assetSymbol)
  else
    match calculate_opportunity_score (some fresh_md) cfg.tradeAmountUsd with
    | (none, _) =>
      if env.twapExitOk then (resetBot, CycleEvent.liquidityDriedExit pos.assetSymbol true)
      else (b, CycleEvent.liquidityDriedExit pos.assetSymbol false)
    | (some current_score, _) =>
      let pos1 := { pos with currentScoreOfPosition := some current_score }
      let b1 := { b with currentPosition := some pos1 }
      runCycleRotationOrDecay sc cfg env b1 pos.assetSymbol current_score now

/-- Lines 233-240 of `run_cycle`: fetch a fresh snapshot for the held
asset; on failure execute the immediate exit (which always reports
success) and reset. -/
def runCycleOpen (sc : SignalCalculator) (cfg : BotConfig) (env : ExecEnv)
    (b : BotState) (pos : Position) (ts : ℚ) (now : ℚ) : BotState × CycleEvent :=
  match fetch_market_data sc pos.assetSymbol with
  | none =>
    if execute_immediate_exit_trade pos.assetSymbol "Critical data fetch error" then
      (resetBot, CycleEvent.criticalDataFetchExit pos.assetSymbol true)
    else (b, CycleEvent.criticalDataFetchExit pos.assetSymbol false)
  | some fresh_md => runCycleOpenFresh sc cfg env b pos ts fresh_md now

/-- Lines 215-226 of `run_cycle`: the `SEARCHING` branch.  The Python guard
`best_asset and best_md and best_score is not None and best_basis is not
None and best_score > entry_threshold` is truthiness on the asset string
(so the empty symbol never enters) plus the score comparison; a float score
is never `None`, and a `-inf` score never exceeds the threshold once the
asset is present. -/
def runCycleSearching (sc : SignalCalculator) (cfg : BotConfig) (env : ExecEnv)
    (b : BotState) (now : ℚ) : BotState × CycleEvent :=
  let best := find_best_opportunity sc cfg.assetsToMonitor cfg.tradeAmountUsd none
  match best.bestAsset, best.bestMarketData, best.bestBasis with
  | some asset, some md, some basis =>
    if asset ≠ "" ∧ scoreGtB best.bestScore cfg.entryThreshold then
      if env.twapEntryOk then
        ({ currentState := BotPhase.positionOpen
           currentPosition := some (entryPosition asset md best.bestScore basis)
           entryTimestamp := some now },
         CycleEvent.entrySucceeded asset)
      else (b, CycleEvent.entryFailed asset)
    else (b, CycleEvent.noOpportunity)
  | _, _, _ => (b, CycleEvent.noOpportunity)

/-- `SpotPerpArbitrageBot.run_cycle` over an explicit execution
environment, with `time.time()` passed in as `now`.  The guard on line 229
(`not self.current_position or not self.entry_timestamp`) is Python
truthiness, so a timestamp equal to `0.0` also triggers the inconsistency
reset. -/
def run_cycle_g (sc : SignalCalculator) (cfg : BotConfig) (env : ExecEnv)
    (b : BotState) (now : ℚ) : BotState × CycleEvent :=
  match b.currentState with
  | BotPhase.searching => runCycleSearching sc cfg env b now
  | BotPhase.positionOpen =>
    match b.currentPosition, b.entryTimestamp with
    | some pos, some ts =>
      if ts = 0 then (resetBot, CycleEvent.inconsistentStateReset)
      else runCycleOpen sc cfg env b pos ts now
    | _, _ => (resetBot, CycleEvent.inconsistentStateReset)

/-- `SpotPerpArbitrageBot.run_cycle` as written: the TWAP outcomes are the
ones `execute_twap_order` computes from the configured parameters. -/
def run_cycle (sc : SignalCalculator) (cfg : BotConfig) (b : BotState)
    (now : ℚ) : BotState × CycleEvent :=
  run_cycle_g sc cfg (actualExecEnv cfg) b now

/-- Spec-side description of a TWAP schedule: `n` equal slices with one
pause between consecutive slices and none after the last.  Compared
against the action list `execute_twap_order` emits. -/
def twapSchedule (order_type : String)
    (amount_per_interval_usd interval_delay_seconds : ℚ) : Nat → List TwapAction
  | 0 => []
  | 1 => sliceActions order_type amount_per_interval_usd
  | Nat.succ (Nat.succ k) =>
    sliceActions order_type amount_per_interval_usd ++
      [TwapAction.pause interval_delay_seconds] ++
      twapSchedule order_type amount_per_interval_usd interval_delay_seconds (Nat.succ k)

/-- Recognises the pause actions of a TWAP action list. -/
def isPause : TwapAction → Bool
  | TwapAction.pause _ => true
  | _ => false

/-- Recognises the spot-leg submissions of a TWAP action list (one per
slice). -/
def isSpotOrder : TwapAction → Bool
  | TwapAction.spotOrder _ _ => true
  | _ => false

/-- The consistency invariant the spec states for the controller:
`POSITION_OPEN` iff a position is present, `POSITION_OPEN` also carries an
entry timestamp, and `SEARCHING` carries neither. -/
def StateInv (b : BotState) : Prop :=
  (b.currentState = BotPhase.positionOpen ↔ b.currentPosition.isSome = true) ∧
  (b.currentState = BotPhase.positionOpen → b.entryTimestamp.isSome = true) ∧
  (b.currentState = BotPhase.searching →
    b.currentPosition = none ∧ b.entryTimestamp = none)

/-- The cycle outcomes that report an execution failure: a failed entry
TWAP while searching, a rotation aborted on exit failure, a rotation whose
entry failed after the exit, and any exit trade that reported failure. -/
def isExecutionFailureEvent : CycleEvent → Bool
  | CycleEvent.entryFailed _ => true
  | CycleEvent.criticalDataFetchExit _ ok => !ok
  | CycleEvent.stopLossTriggered _ ok => !ok
  | CycleEvent.liquidityDriedExit _ ok => !ok
  | CycleEvent.rotationAbortedExitFailed _ => true
  | CycleEvent.rotationEntryFailedAfterExit _ _ => true
  | CycleEvent.positionDecayedExit _ ok => !ok
  | _ => false

/-- Concrete snapshot: spec scenario 1 (`spot=3000, perp=3003,
funding=0.01`) with the order books of the mock data store's ETH entry. -/
def ethScenarioMd : MarketData :=
  { assetSymbol := "ETH"
    spotPrice := 3000
    perpPrice := 3003
    nextFundingRateHourly := 1/100
    spotOrderBook := some ⟨[(2999, 100)], [(3001, 100)]⟩
    perpOrderBook := some ⟨[(3000, 150)], [(3002, 150)]⟩ }

/-- Concrete snapshot with `spot_price = 0` and otherwise liquid-looking
books, used to evaluate the zero-spot-price branch. -/
def zeroSpotMd : MarketData :=
  { assetSymbol := "ZRO"
    spotPrice := 0
    perpPrice := 100
    nextFundingRateHourly := 1/100
    spotOrderBook := some ⟨[(1, 1)], [(1, 1)]⟩
    perpOrderBook := some ⟨[(100, 5)], [(100, 5)]⟩ }

/-- Concrete snapshot whose books are too thin for a 1000 USD notional. -/
def thinMd : MarketData :=
  { assetSymbol := "THN"
    spotPrice := 100
    perpPrice := 101
    nextFundingRateHourly := 0
    spotOrderBook := some ⟨[(100, 1)], [(100, 1)]⟩
    perpOrderBook := some ⟨[(101, 1)], [(101, 1)]⟩ }

/-- A concrete order book used to evaluate the liquidity check. -/
def sampleBook : OrderBook := ⟨[(2999, 100)], [(3001, 100)]⟩

/-- Concrete fresh snapshot for the stop-loss scenario (spec scenario 2:
the held asset's perp price moved from 3003 to 3034). -/
def stopLossMd : MarketData :=
  { assetSymbol := "ETH"
    spotPrice := 3000
    perpPrice := 3034
    nextFundingRateHourly := 1/5
    spotOrderBook := some ⟨[(2999, 100)], [(3001, 100)]⟩
    perpOrderBook := some ⟨[(3000, 150)], [(3002, 150)]⟩ }

/-- Calculator whose store serves the stop-loss snapshot for ETH. -/
def scStopLoss : SignalCalculator := ⟨[("ETH", stopLossMd)]⟩

/-- Position entered at `spot=3000, perp=3003` (spec scenario 2). -/
def posStopLoss : Position :=
  { assetSymbol := "ETH"
    entrySpotPrice := 3000
    entryPerpPrice := 3003
    entryBasisPercentage := 1/10
    entryScore := some (-9/100)
    marketDataAtEntry := ethScenarioMd
    currentScoreOfPosition := none }

/-- Configuration for the stop-loss scenario: threshold 1.0 percent, a one
hour minimum holding period, valid TWAP parameters. -/
def cfgStopLoss : BotConfig :=
  { assetsToMonitor := ["ETH"]
    tradeAmountUsd := 1000
    entryThreshold := 1/20
    rotationThreshold := 1/50
    positionDecayThreshold := 1/100
    minHoldingPeriodSeconds := 3600
    twapDurationMinutes := 1
    twapNumIntervals := 2
    stopLossBasisThresholdPercentage := 1 }

/-- Bot holding the scenario-2 position since timestamp 1000. -/
def bStopLoss : BotState :=
  { currentState := BotPhase.positionOpen
    currentPosition := some posStopLoss
    entryTimestamp := some 1000 }

/-- Current ETH snapshot for the rotation scenario (the mock store's ETH
record: score 0.005 + 0.05 - 0.2 = -0.145). -/
def ethRotMd : MarketData :=
  { assetSymbol := "ETH"
    spotPrice := 3000
    perpPrice := 6003/2
    nextFundingRateHourly := 1/200
    spotOrderBook := some ⟨[(2999, 100)], [(3001, 100)]⟩
    perpOrderBook := some ⟨[(3000, 150)], [(3002, 150)]⟩ }

/-- Alternative BTC snapshot for the rotation scenario
(score 0.2 + 0.1 - 0.2 = 0.1, well above ETH's refreshed score). -/
def btcRotMd : MarketData :=
  { assetSymbol := "BTC"
    spotPrice := 60000
    perpPrice := 60060
    nextFundingRateHourly := 1/5
    spotOrderBook := some ⟨[(59990, 10)], [(60020, 10)]⟩
    perpOrderBook := some ⟨[(60000, 15)], [(60090, 15)]⟩ }

/-- Calculator for the rotation scenario. -/
def scRot : SignalCalculator := ⟨[("ETH", ethRotMd), ("BTC", btcRotMd)]⟩

/-- Held ETH position for the rotation scenario (entered at the current
prices, so the basis change is zero and no stop-loss fires). -/
def posRot : Position :=
  { assetSymbol := "ETH"
    entrySpotPrice := 3000
    entryPerpPrice := 6003/2
    entryBasisPercentage := 1/20
    entryScore := some (-29/200)
    marketDataAtEntry := ethRotMd
    currentScoreOfPosition := none }

/-- Configuration for the rotation scenario: holding period elapsed,
rotation threshold 0.02, decay threshold below ETH's refreshed score. -/
def cfgRot : BotConfig :=
  { assetsToMonitor := ["ETH", "BTC"]
    tradeAmountUsd := 1000
    entryThreshold := 1/20
    rotationThreshold := 1/50
    positionDecayThreshold := -1
    minHoldingPeriodSeconds := 0
    twapDurationMinutes := 1
    twapNumIntervals := 2
    stopLossBasisThresholdPercentage := 1 }

/-- Bot holding the rotation-scenario ETH position since timestamp 1000. -/
def bRot : BotState :=
  { currentState := BotPhase.positionOpen
    currentPosition := some posRot
    entryTimestamp := some 1000 }

/-- A cycle result state is either the reset state, a well-formed open
state, or it echoes the input's phase, position presence and timestamp. -/
def ShapeOk (b out : BotState) : Prop :=
  out = resetBot ∨
  (out.currentState = BotPhase.positionOpen ∧ out.currentPosition.isSome = true ∧
    out.entryTimestamp.isSome = true) ∨
  (out.currentState = b.currentState ∧
    out.currentPosition.isSome = b.currentPosition.isSome ∧
    out.entryTimestamp = b.entryTimestamp)

/-! ## Theorems -/

/-- The liquidity check rejects a zero reference price for any book. -/
lemma check_liquidity_zero_price (ob : Option OrderBook) (amt tol : ℚ) :
    check_liquidity ob amt 0 tol = false := by
  cases ob with
  | none => rfl
  | some b => simp [check_liquidity]

/-- If either leg's liquidity check fails, the score function returns the
absent pair. -/
lemma calc_none_of_liquidity_fail (md : MarketData) (amt : ℚ)
    (h : check_liquidity md.spotOrderBook amt md.spotPrice DEFAULT_SLIPPAGE_TOLERANCE = false ∨
         check_liquidity md.perpOrderBook amt md.perpPrice DEFAULT_SLIPPAGE_TOLERANCE = false) :
    calculate_opportunity_score (some md) amt = (none, none) := by
  simp only [calculate_opportunity_score]
  rw [if_pos]
  rcases h with h | h
  · exact Or.inl (by simp [h])
  · exact Or.inr (by simp [h])

/-- C5: for every snapshot and notional, a failed liquidity check on either
the spot book or the perp book makes `calculate_opportunity_score` return
`(absent, absent)` — never a partial score. -/
theorem liquidity_failure_propagates (md : MarketData) (amt : ℚ)
    (h : check_liquidity md.spotOrderBook amt md.spotPrice DEFAULT_SLIPPAGE_TOLERANCE = false ∨
         check_liquidity md.perpOrderBook amt md.perpPrice DEFAULT_SLIPPAGE_TOLERANCE = false) :
    calculate_opportunity_score (some md) amt = (none, none) :=
  calc_none_of_liquidity_fail md amt h

/-- Witness for C5: the thin-book snapshot fails the spot liquidity check
for a 1000 USD notional, so the score is the absent pair. -/
theorem liquidity_failure_propagates_witness :
    calculate_opportunity_score (some thinMd) 1000 = (none, none) :=
  liquidity_failure_propagates thinMd 1000
    (Or.inl (by norm_num [check_liquidity, thinMd, DEFAULT_SLIPPAGE_TOLERANCE]))

/-- C4 counterexample: on a snapshot whose `spot_price` is zero the score
function returns `(absent, absent)`, not the claimed `(0.0, 0.0)` — the
liquidity check fails closed at reference price 0 before the zero-price
fallback line can run. -/
theorem spot_zero_score_cex :
    calculate_opportunity_score (some zeroSpotMd) 10 = (none, none) ∧
    ¬ (calculate_opportunity_score (some zeroSpotMd) 10 =
        ((some 0 : Option ℚ), (some 0 : Option ℚ))) := by
  have h : calculate_opportunity_score (some zeroSpotMd) 10 = (none, none) :=
    calc_none_of_liquidity_fail zeroSpotMd 10
      (Or.inl (check_liquidity_zero_price zeroSpotMd.spotOrderBook 10 _))
  exact ⟨h, by rw [h]; simp⟩

/-- C4 amended: `calculate_opportunity_score` on any snapshot with
`spot_price = 0` returns `(absent, absent)` (and in particular never
divides by zero): the liquidity check on the spot book fails closed at
reference price 0, so the `(0.0, 0.0)` fallback branch is unreachable. -/
theorem spot_zero_returns_absent (md : MarketData) (amt : ℚ)
    (h : md.spotPrice = 0) :
    calculate_opportunity_score (some md) amt = (none, none) :=
  calc_none_of_liquidity_fail md amt
    (Or.inl (by rw [h]; exact check_liquidity_zero_price md.spotOrderBook amt _))

/-- Witness for C4: the amended statement evaluated on the concrete
zero-spot snapshot. -/
theorem spot_zero_returns_absent_witness :
    calculate_opportunity_score (some zeroSpotMd) 10 = (none, none) :=
  spot_zero_returns_absent zeroSpotMd 10 rfl

/-- C6: `_check_liquidity` with the default tolerance 0.005 = 1/200 fails
for a missing book, an empty bid or ask side, or a zero reference price;
and for a populated book at a nonzero price it succeeds iff both the ask
volume within `price * (1 + tol)` and the bid volume within
`price * (1 - tol)` are at least `trade_notional / price`. -/
theorem check_liquidity_characterization (ob : OrderBook) (amt price : ℚ) :
    check_liquidity none amt price (1/200) = false ∧
    (ob.bids = [] ∨ ob.asks = [] → check_liquidity (some ob) amt price (1/200) = false) ∧
    check_liquidity (some ob) amt 0 (1/200) = false ∧
    (ob.bids ≠ [] → ob.asks ≠ [] → price ≠ 0 →
      (check_liquidity (some ob) amt price (1/200) = true ↔
        amt / price ≤
          ((ob.asks.filter (fun pv => pv.1 ≤ price * (1 + 1/200))).map
            (fun pv => pv.2)).sum ∧
        amt / price ≤
          ((ob.bids.filter (fun pv => pv.1 ≥ price * (1 - 1/200))).map
            (fun pv => pv.2)).sum)) := by
  refine ⟨rfl, ?_, ?_, ?_⟩
  · intro h
    simp only [check_liquidity]
    rw [if_pos (by tauto)]
  · exact check_liquidity_zero_price (some ob) amt _
  · intro h1 h2 h3
    simp only [check_liquidity]
    rw [if_neg (by tauto)]
    simp [Bool.and_eq_true, decide_eq_true_eq]

/-- Witness for C6: the sample book passes at price 3000 for a 1000 USD
notional, and the missing book fails, both through the characterization. -/
theorem check_liquidity_characterization_witness :
    check_liquidity (some sampleBook) 1000 3000 (1/200) = true ∧
    check_liquidity none 1000 3000 (1/200) = false := by
  have h := check_liquidity_characterization sampleBook 1000 3000
  exact ⟨(h.2.2.2 (by simp [sampleBook]) (by simp [sampleBook]) (by norm_num)).mpr
    (by norm_num [sampleBook]), h.1⟩

/-- For a known intent, the TWAP loop always reports success and emits
exactly the schedule of slices and pauses. -/
lemma twapLoop_eq_schedule (t : String) (amt delay : ℚ)
    (ht : t = "ENTRY" ∨ t = "EXIT") :
    ∀ k, twapLoop t amt delay k = (true, twapSchedule t amt delay k) := by
  have step : ∀ rem, twapLoop t amt delay (rem + 1) =
      if t = "ENTRY" ∨ t = "EXIT" then
        ((twapLoop t amt delay rem).1,
          sliceActions t amt ++
            (if 0 < rem then [TwapAction.pause delay] else []) ++
            (twapLoop t amt delay rem).2)
      else (false, []) := fun rem => rfl
  intro k
  induction k with
  | zero => rfl
  | succ m ih =>
    rw [step m, if_pos ht, ih]
    cases m with
    | zero => simp [twapSchedule]
    | succ j => simp [twapSchedule]

/-- With valid parameters and a known intent, `execute_twap_order` succeeds
and emits the schedule computed from the per-interval notional and delay. -/
lemma execute_twap_order_valid (t : String) (tot d : ℚ) (n : ℤ)
    (ht : t = "ENTRY" ∨ t = "EXIT") (hn : 0 < n) (hd : 0 < d) :
    execute_twap_order t tot d n =
      (true, twapSchedule t (tot / (n : ℚ)) (d * 60 / (n : ℚ)) n.toNat) := by
  unfold execute_twap_order
  rw [if_neg (by simp [not_or, not_le]; exact ⟨hn, hd⟩)]
  exact twapLoop_eq_schedule t _ _ ht _

/-- A slice's two leg orders contain no pause. -/
lemma sliceActions_filter_pause (t : String) (amt : ℚ) :
    (sliceActions t amt).filter isPause = [] := by
  unfold sliceActions
  split <;> rfl

/-- A slice's two leg orders contain exactly one spot order. -/
lemma sliceActions_filter_spot (t : String) (amt : ℚ) :
    ((sliceActions t amt).filter isSpotOrder).length = 1 := by
  unfold sliceActions
  split <;> rfl

/-- A schedule of `k + 1` slices contains exactly `k` pauses. -/
lemma twapSchedule_pause_length (t : String) (amt delay : ℚ) :
    ∀ k, ((twapSchedule t amt delay (k + 1)).filter isPause).length = k := by
  intro k
  induction k with
  | zero =>
    show ((sliceActions t amt).filter isPause).length = 0
    rw [sliceActions_filter_pause]
    rfl
  | succ j ih =>
    show ((sliceActions t amt ++ [TwapAction.pause delay] ++
        twapSchedule t amt delay (j + 1)).filter isPause).length = j + 1
    rw [List.filter_append, List.filter_append, sliceActions_filter_pause]
    simp only [List.nil_append, List.length_append, ih]
    rw [show (List.filter isPause [TwapAction.pause delay]).length = 1 from rfl]
    omega

/-- A schedule of `k + 1` slices contains exactly `k + 1` spot orders. -/
lemma twapSchedule_spot_length (t : String) (amt delay : ℚ) :
    ∀ k, ((twapSchedule t amt delay (k + 1)).filter isSpotOrder).length = k + 1 := by
  intro k
  induction k with
  | zero => exact sliceActions_filter_spot t amt
  | succ j ih =>
    show ((sliceActions t amt ++ [TwapAction.pause delay] ++
        twapSchedule t amt delay (j + 1)).filter isSpotOrder).length = j + 2
    rw [List.filter_append, List.filter_append]
    simp only [List.length_append, sliceActions_filter_spot, ih]
    rw [show (List.filter isSpotOrder [TwapAction.pause delay]).length = 0 from rfl]
    omega

/-- C7: `execute_twap_order` fails immediately with no slice and no pause on
non-positive intervals or duration, and on an unknown intent; with valid
parameters and intent `ENTRY`/`EXIT` it succeeds and emits exactly
`num_intervals` slices of `total / num_intervals` each, separated by
`num_intervals - 1` pauses of `duration * 60 / num_intervals` seconds, with
no pause after the last slice. -/
theorem execute_twap_order_characterization (t : String) (tot d : ℚ) (n : ℤ) :
    ((n ≤ 0 ∨ d ≤ 0) → execute_twap_order t tot d n = (false, [])) ∧
    (0 < n → 0 < d → ¬ (t = "ENTRY" ∨ t = "EXIT") →
      execute_twap_order t tot d n = (false, [])) ∧
    (0 < n → 0 < d → (t = "ENTRY" ∨ t = "EXIT") →
      execute_twap_order t tot d n =
        (true, twapSchedule t (tot / (n : ℚ)) (d * 60 / (n : ℚ)) n.toNat) ∧
      ((execute_twap_order t tot d n).2.filter isPause).length = n.toNat - 1 ∧
      ((execute_twap_order t tot d n).2.filter isSpotOrder).length = n.toNat) := by
  refine ⟨?_, ?_, ?_⟩
  · intro h
    unfold execute_twap_order
    rw [if_pos h]
  · intro hn hd ht
    unfold execute_twap_order
    rw [if_neg (by simp [not_or, not_le]; exact ⟨hn, hd⟩)]
    obtain ⟨m, hm⟩ : ∃ m, n.toNat = m + 1 :=
      ⟨n.toNat - 1, by omega⟩
    rw [hm]
    simp only [twapLoop]
    rw [if_neg ht]
  · intro hn hd ht
    have heq := execute_twap_order_valid t tot d n ht hn hd
    obtain ⟨m, hm⟩ : ∃ m, n.toNat = m + 1 :=
      ⟨n.toNat - 1, by omega⟩
    refine ⟨heq, ?_, ?_⟩
    · rw [heq, hm]
      simp only [twapSchedule_pause_length]
      omega
    · rw [heq, hm]
      simp only [twapSchedule_spot_length]

/-- Witness for C7, spec scenario 3: one minute and two intervals give two
half-notional slices separated by a single 30 second pause, and zero
intervals fail immediately. -/
theorem execute_twap_order_characterization_witness :
    execute_twap_order "ENTRY" 100 1 2 =
      (true, [TwapAction.spotOrder "buy" 50, TwapAction.perpOrder "sell" 50,
              TwapAction.pause 30, TwapAction.spotOrder "buy" 50,
              TwapAction.perpOrder "sell" 50]) ∧
    execute_twap_order "ENTRY" 100 1 0 = (false, []) := by
  have h := (execute_twap_order_characterization "ENTRY" 100 1 2).2.2
    (by norm_num) (by norm_num) (Or.inl rfl)
  have h0 := (execute_twap_order_characterization "ENTRY" 100 1 0).1
    (Or.inl le_rfl)
  refine ⟨h.1.trans ?_, h0⟩
  norm_num [twapSchedule, sliceActions]

/-- The search loop never replaces the accumulator with the excluded
symbol, so an accumulator that avoids the excluded symbol stays that way. -/
lemma find_best_aux_ne (sc : SignalCalculator) (amt : ℚ) (x : String) :
    ∀ (assets : List String) (acc : BestOpportunity),
      acc.bestAsset ≠ some x →
      (find_best_aux sc amt (some x) acc assets).bestAsset ≠ some x := by
  intro assets
  induction assets with
  | nil => exact fun acc h => h
  | cons a rest ih =>
    intro acc h
    rw [find_best_aux]
    split_ifs with hx
    · exact ih acc h
    · cases hmd : fetch_market_data sc a with
      | none =>
        simp only [hmd]
        exact ih acc h
      | some md =>
        simp only [hmd]
        rcases hcs : calculate_opportunity_score (some md) amt with ⟨s, bss⟩
        cases s with
        | none =>
          simp only [hcs]
          exact ih acc h
        | some s0 =>
          simp only [hcs]
          split_ifs with hgt
          · exact ih ⟨some a, some s0, some md, bss⟩ (by simpa using hx)
          · exact ih acc h

/-- If every candidate is excluded, has no data, or has no usable score,
the search loop returns its accumulator unchanged. -/
lemma find_best_aux_unusable (sc : SignalCalculator) (amt : ℚ)
    (excl : Option String) :
    ∀ (assets : List String) (acc : BestOpportunity),
      (∀ a ∈ assets, some a = excl ∨ fetch_market_data sc a = none ∨
        (calculate_opportunity_score (fetch_market_data sc a) amt).1 = none) →
      find_best_aux sc amt excl acc assets = acc := by
  intro assets
  induction assets with
  | nil => exact fun acc _ => rfl
  | cons a rest ih =>
    intro acc h
    have ha := h a (List.mem_cons_self a rest)
    have hrest : ∀ b ∈ rest, some b = excl ∨ fetch_market_data sc b = none ∨
        (calculate_opportunity_score (fetch_market_data sc b) amt).1 = none :=
      fun b hb => h b (List.mem_cons_of_mem a hb)
    rw [find_best_aux]
    by_cases hx : some a = excl
    · rw [if_pos hx]
      exact ih acc hrest
    · rw [if_neg hx]
      rcases ha with h1 | h2 | h3
      · exact absurd h1 hx
      · simp only [h2]
        exact ih acc hrest
      · cases hmd : fetch_market_data sc a with
        | none =>
          simp only [hmd]
          exact ih acc hrest
        | some md =>
          rw [hmd] at h3
          simp only [hmd]
          rcases hcs : calculate_opportunity_score (some md) amt with ⟨s, bss⟩
          rw [hcs] at h3
          cases s with
          | none =>
            simp only [hcs]
            exact ih acc hrest
          | some s0 => exact absurd h3 (by simp)

/-- C9: `find_best_opportunity` never returns the excluded symbol, even when
it would have the best score; with no candidates, or no candidate carrying a
usable score, it returns the sentinel `(absent, -inf, absent, absent)`
(`bestScore = none` encodes `-math.inf`). -/
theorem find_best_opportunity_exclusion_sentinel (sc : SignalCalculator)
    (assets : List String) (amt : ℚ) (x : String) (excl : Option String) :
    (find_best_opportunity sc assets amt (some x)).bestAsset ≠ some x ∧
    find_best_opportunity sc [] amt excl = ⟨none, none, none, none⟩ ∧
    ((∀ a ∈ assets, some a = excl ∨ fetch_market_data sc a = none ∨
        (calculate_opportunity_score (fetch_market_data sc a) amt).1 = none) →
      find_best_opportunity sc assets amt excl = ⟨none, none, none, none⟩) :=
  ⟨find_best_aux_ne sc amt x assets ⟨none, none, none, none⟩ (by simp),
   rfl,
   fun h => find_best_aux_unusable sc amt excl assets ⟨none, none, none, none⟩ h⟩

/-- Witness for C9: with ETH both the only candidate and the exclusion, the
search returns the sentinel and in particular not ETH. -/
theorem find_best_opportunity_exclusion_sentinel_witness :
    find_best_opportunity scStopLoss ["ETH"] 1000 (some "ETH") =
      ⟨none, none, none, none⟩ ∧
    (find_best_opportunity scStopLoss ["ETH"] 1000 (some "ETH")).bestAsset ≠
      some "ETH" := by
  have h := find_best_opportunity_exclusion_sentinel scStopLoss ["ETH"] 1000
    "ETH" (some "ETH")
  refine ⟨h.2.2 ?_, h.1⟩
  intro a ha
  rw [List.mem_singleton.mp ha]
  exact Or.inl rfl

/-- C8: on a snapshot with positive spot price that passes both liquidity
checks, the score function returns the basis percent
`(perp - spot) / spot * 100` and the score
`funding + basis - ROUND_TRIP_FEES_PERCENT` (fee constant 0.2). -/
theorem opportunity_score_formula (md : MarketData) (amt : ℚ)
    (h0 : 0 < md.spotPrice)
    (hs : check_liquidity md.spotOrderBook amt md.spotPrice DEFAULT_SLIPPAGE_TOLERANCE = true)
    (hp : check_liquidity md.perpOrderBook amt md.perpPrice DEFAULT_SLIPPAGE_TOLERANCE = true) :
    calculate_opportunity_score (some md) amt =
      (some (md.nextFundingRateHourly +
          (md.perpPrice - md.spotPrice) / md.spotPrice * 100 - ROUND_TRIP_FEES_PERCENT),
       some ((md.perpPrice - md.spotPrice) / md.spotPrice * 100)) := by
  simp only [calculate_opportunity_score]
  rw [if_neg (by simp [hs, hp]), if_neg h0.ne']

/-- Witness for C8, spec scenario 1: spot 3000, perp 3003, funding 0.01 and
liquid books give basis 0.1 and score -0.09. -/
theorem opportunity_score_formula_witness :
    calculate_opportunity_score (some ethScenarioMd) 1000 =
      (some (-9/100), some (1/10)) := by
  rw [opportunity_score_formula ethScenarioMd 1000 (by norm_num [ethScenarioMd])
    (by norm_num [check_liquidity, ethScenarioMd, DEFAULT_SLIPPAGE_TOLERANCE])
    (by norm_num [check_liquidity, ethScenarioMd, DEFAULT_SLIPPAGE_TOLERANCE])]
  norm_num [ethScenarioMd, ROUND_TRIP_FEES_PERCENT]

/-- Every state is shape-compatible with itself. -/
lemma shape_refl (b : BotState) : ShapeOk b b :=
  Or.inr (Or.inr ⟨rfl, rfl, rfl⟩)

/-- The reset state is always an admissible shape. -/
lemma shape_reset (b : BotState) : ShapeOk b resetBot :=
  Or.inl rfl

/-- The decay check either resets the bot or leaves it unchanged. -/
lemma runCycleDecay_shape (cfg : BotConfig) (env : ExecEnv) (b1 : BotState)
    (pa : String) (cs : ℚ) : ShapeOk b1 (runCycleDecay cfg env b1 pa cs).1 := by
  unfold runCycleDecay
  split_ifs <;> first | exact shape_reset b1 | exact shape_refl b1

/-- The rotation-or-decay step resets, replaces the position wholesale with
a fresh open state, or leaves the bot unchanged. -/
lemma runCycleRotationOrDecay_shape (sc : SignalCalculator) (cfg : BotConfig)
    (env : ExecEnv) (b1 : BotState) (pa : String) (cs : ℚ) (now : ℚ) :
    ShapeOk b1 (runCycleRotationOrDecay sc cfg env b1 pa cs now).1 := by
  simp only [runCycleRotationOrDecay]
  split
  · split_ifs
    · exact Or.inr (Or.inl ⟨rfl, rfl, rfl⟩)
    · exact shape_refl b1
    · exact shape_refl b1
    · exact runCycleDecay_shape cfg env b1 pa cs
  · exact runCycleDecay_shape cfg env b1 pa cs

/-- Shape compatibility transfers from the score-updated state back to the
original state, because only the stored position record changed. -/
lemma shape_trans_b1 (b : BotState) (p : Position) (out : BotState)
    (hb : b.currentPosition.isSome = true)
    (h : ShapeOk { b with currentPosition := some p } out) : ShapeOk b out := by
  rcases h with h | h | h
  · exact Or.inl h
  · exact Or.inr (Or.inl h)
  · obtain ⟨h1, h2, h3⟩ := h
    exact Or.inr (Or.inr ⟨h1, h2.trans hb.symm, h3⟩)

/-- The fresh-snapshot branch of the open state preserves the shape. -/
lemma runCycleOpenFresh_shape (sc : SignalCalculator) (cfg : BotConfig)
    (env : ExecEnv) (b : BotState) (pos : Position) (ts : ℚ)
    (fresh_md : MarketData) (now : ℚ)
    (hb : b.currentPosition.isSome = true) :
    ShapeOk b (runCycleOpenFresh sc cfg env b pos ts fresh_md now).1 := by
  simp only [runCycleOpenFresh]
  split_ifs <;>
    first
      | exact shape_reset b
      | exact shape_refl b
      | (split <;>
          first
            | exact shape_reset b
            | exact shape_refl b
            | exact shape_trans_b1 b _ _ hb
                (runCycleRotationOrDecay_shape sc cfg env _ _ _ now))

/-- The open-state branch preserves the shape. -/
lemma runCycleOpen_shape (sc : SignalCalculator) (cfg : BotConfig)
    (env : ExecEnv) (b : BotState) (pos : Position) (ts : ℚ) (now : ℚ)
    (hb : b.currentPosition.isSome = true) :
    ShapeOk b (runCycleOpen sc cfg env b pos ts now).1 := by
  unfold runCycleOpen
  split
  · split_ifs
    · exact shape_reset b
    · exact shape_refl b
  · exact runCycleOpenFresh_shape sc cfg env b pos ts _ now hb

/-- The searching branch either keeps the state or opens a well-formed
position. -/
lemma runCycleSearching_shape (sc : SignalCalculator) (cfg : BotConfig)
    (env : ExecEnv) (b : BotState) (now : ℚ) :
    ShapeOk b (runCycleSearching sc cfg env b now).1 := by
  simp only [runCycleSearching]
  split
  · split_ifs
    · exact Or.inr (Or.inl ⟨rfl, rfl, rfl⟩)
    · exact shape_refl b
    · exact shape_refl b
  · exact shape_refl b

/-- One full cycle resets, produces a well-formed open state, or echoes the
input's phase, position presence and timestamp. -/
lemma run_cycle_g_shape (sc : SignalCalculator) (cfg : BotConfig)
    (env : ExecEnv) (b : BotState) (now : ℚ) :
    ShapeOk b (run_cycle_g sc cfg env b now).1 := by
  obtain ⟨st, pos, ts⟩ := b
  cases st with
  | searching => exact runCycleSearching_shape sc cfg env _ now
  | positionOpen =>
    cases pos with
    | none => exact shape_reset _
    | some p =>
      cases ts with
      | none => exact shape_reset _
      | some t =>
        simp only [run_cycle_g]
        split_ifs
        · exact shape_reset _
        · exact runCycleOpen_shape sc cfg env _ p t now rfl

/-- The reset state satisfies the controller invariant. -/
lemma stateInv_resetBot : StateInv resetBot := by
  unfold StateInv resetBot
  refine ⟨?_, ?_, ?_⟩ <;> simp

/-- C1: `run_cycle` preserves the state invariant (`POSITION_OPEN` iff a
position is present, with an entry timestamp, and `SEARCHING` carries
neither), and a cycle entered in the inconsistent `POSITION_OPEN` state with
no position or no timestamp resets to `SEARCHING` with no position. -/
theorem run_cycle_state_invariant (sc : SignalCalculator) (cfg : BotConfig)
    (b : BotState) (now : ℚ) :
    (StateInv b → StateInv (run_cycle sc cfg b now).1) ∧
    (b.currentState = BotPhase.positionOpen →
      (b.currentPosition = none ∨ b.entryTimestamp = none) →
      (run_cycle sc cfg b now).1 = resetBot) := by
  constructor
  · intro hInv
    show StateInv (run_cycle_g sc cfg (actualExecEnv cfg) b now).1
    rcases run_cycle_g_shape sc cfg (actualExecEnv cfg) b now with h | h | h
    · rw [h]
      exact stateInv_resetBot
    · obtain ⟨h1, h2, h3⟩ := h
      refine ⟨?_, ?_, ?_⟩
      · rw [h1, h2]
        simp
      · intro _
        exact h3
      · intro hc
        rw [h1] at hc
        exact absurd hc (by simp)
    · obtain ⟨h1, h2, h3⟩ := h
      obtain ⟨i1, i2, i3⟩ := hInv
      refine ⟨?_, ?_, ?_⟩
      · rw [h1, h2]
        exact i1
      · intro ho
        rw [h3]
        exact i2 (h1 ▸ ho)
      · intro ho
        have hbs : b.currentState = BotPhase.searching := h1 ▸ ho
        obtain ⟨p1, p2⟩ := i3 hbs
        have hnone : (run_cycle_g sc cfg (actualExecEnv cfg) b now).1.currentPosition.isSome = false := by
          rw [h2, p1]
          rfl
        refine ⟨?_, by rw [h3, p2]⟩
        exact Option.not_isSome_iff_eq_none.mp (by simp [hnone])
  · obtain ⟨st, pos, ts⟩ := b
    intro hopen hnone
    cases st with
    | searching => simp at hopen
    | positionOpen =>
      rcases hnone with h | h
      · dsimp only at h
        subst h
        rfl
      · dsimp only at h
        subst h
        cases pos <;> rfl

/-- Witness for C1: the invariant holds after a cycle from the initial
state, and a cycle entered in `POSITION_OPEN` with no position resets. -/
theorem run_cycle_state_invariant_witness :
    StateInv (run_cycle scStopLoss cfgStopLoss resetBot 100).1 ∧
    (run_cycle scStopLoss cfgStopLoss
      ⟨BotPhase.positionOpen, none, none⟩ 100).1 = resetBot :=
  ⟨(run_cycle_state_invariant scStopLoss cfgStopLoss resetBot 100).1
      stateInv_resetBot,
   (run_cycle_state_invariant scStopLoss cfgStopLoss
      ⟨BotPhase.positionOpen, none, none⟩ 100).2 rfl (Or.inl rfl)⟩

/-- C3: in `POSITION_OPEN` with a fresh snapshot available, a basis change
`((curr_perp - curr_spot) - (entry_perp - entry_spot)) / entry_spot * 100`
above the stop-loss threshold makes the cycle execute the immediate
(non-TWAP) exit and reset to `SEARCHING` with no position — for every
`now`, so in particular also inside the minimum holding period: the
holding-period guard is checked only after the stop-loss. -/
theorem stop_loss_overrides_holding_period (sc : SignalCalculator)
    (cfg : BotConfig) (b : BotState) (now : ℚ) (pos : Position) (ts : ℚ)
    (md : MarketData)
    (hstate : b.currentState = BotPhase.positionOpen)
    (hpos : b.currentPosition = some pos)
    (hts : b.entryTimestamp = some ts)
    (hts0 : ts ≠ 0)
    (hmd : fetch_market_data sc pos.assetSymbol = some md)
    (hsl : cfg.stopLossBasisThresholdPercentage <
      (md.perpPrice - md.spotPrice - (pos.entryPerpPrice - pos.entrySpotPrice)) /
        pos.entrySpotPrice * 100) :
    run_cycle sc cfg b now =
      (resetBot, CycleEvent.stopLossTriggered pos.assetSymbol true) := by
  obtain ⟨st, cpos, cts⟩ := b
  dsimp only at hstate hpos hts
  subst hstate
  subst hpos
  subst hts
  simp only [run_cycle, run_cycle_g]
  rw [if_neg hts0]
  simp only [runCycleOpen, hmd]
  simp only [runCycleOpenFresh]
  have hcond : (if pos.entrySpotPrice ≠ 0 then
      (md.perpPrice - md.spotPrice - (pos.entryPerpPrice - pos.entrySpotPrice)) /
        pos.entrySpotPrice * 100
    else 0) =
      (md.perpPrice - md.spotPrice - (pos.entryPerpPrice - pos.entrySpotPrice)) /
        pos.entrySpotPrice * 100 := by
    split_ifs with h
    · rfl
    · push_neg at h
      rw [h, div_zero, zero_mul]
  rw [hcond, if_pos hsl]
  simp [execute_immediate_exit_trade]

/-- Witness for C3, spec scenario 2: entry at 3000/3003, fresh snapshot
3000/3034 gives a basis change of 31/30 percent, above the threshold of 1;
the cycle exits immediately even though only 1 second of the 3600 second
minimum holding period has elapsed. -/
theorem stop_loss_overrides_holding_period_witness :
    run_cycle scStopLoss cfgStopLoss bStopLoss 1001 =
      (resetBot, CycleEvent.stopLossTriggered "ETH" true) ∧
    1001 - (1000 : ℚ) < cfgStopLoss.minHoldingPeriodSeconds := by
  constructor
  · exact stop_loss_overrides_holding_period scStopLoss cfgStopLoss bStopLoss
      1001 posStopLoss 1000 stopLossMd rfl rfl rfl (by norm_num)
      (by norm_num [fetch_market_data, scStopLoss, storeLookup, stopLossMd, posStopLoss])
      (by norm_num [cfgStopLoss, stopLossMd, posStopLoss])
  · norm_num [cfgStopLoss]

/-- Fetching ETH from the rotation-scenario store. -/
lemma fetch_scRot_eth : fetch_market_data scRot "ETH" = some ethRotMd := by
  norm_num [fetch_market_data, storeLookup, scRot, ethRotMd]

/-- Fetching BTC from the rotation-scenario store. -/
lemma fetch_scRot_btc : fetch_market_data scRot "BTC" = some btcRotMd := by
  have hne : ¬ ("BTC" = "ETH") := by decide
  norm_num [fetch_market_data, storeLookup, scRot, hne, btcRotMd]

/-- The positive-branch score formula (used by evaluation lemmas). -/
lemma calc_score_formula (md : MarketData) (amt : ℚ)
    (h0 : 0 < md.spotPrice)
    (hs : check_liquidity md.spotOrderBook amt md.spotPrice DEFAULT_SLIPPAGE_TOLERANCE = true)
    (hp : check_liquidity md.perpOrderBook amt md.perpPrice DEFAULT_SLIPPAGE_TOLERANCE = true) :
    calculate_opportunity_score (some md) amt =
      (some (md.nextFundingRateHourly +
          (md.perpPrice - md.spotPrice) / md.spotPrice * 100 - ROUND_TRIP_FEES_PERCENT),
       some ((md.perpPrice - md.spotPrice) / md.spotPrice * 100)) := by
  simp only [calculate_opportunity_score]
  rw [if_neg (by simp [hs, hp]), if_neg h0.ne']

/-- The refreshed ETH score in the rotation scenario:
0.005 + 0.05 - 0.2 = -0.145. -/
lemma calc_ethRot :
    calculate_opportunity_score (some ethRotMd) 1000 =
      (some (-29/200), some (1/20)) := by
  rw [calc_score_formula ethRotMd 1000 (by norm_num [ethRotMd])
    (by norm_num [check_liquidity, ethRotMd, DEFAULT_SLIPPAGE_TOLERANCE])
    (by norm_num [check_liquidity, ethRotMd, DEFAULT_SLIPPAGE_TOLERANCE])]
  norm_num [ethRotMd, ROUND_TRIP_FEES_PERCENT]

/-- The BTC score in the rotation scenario: 0.2 + 0.1 - 0.2 = 0.1. -/
lemma calc_btcRot :
    calculate_opportunity_score (some btcRotMd) 1000 =
      (some (1/10), some (1/10)) := by
  rw [calc_score_formula btcRotMd 1000 (by norm_num [btcRotMd])
    (by norm_num [check_liquidity, btcRotMd, DEFAULT_SLIPPAGE_TOLERANCE])
    (by norm_num [check_liquidity, btcRotMd, DEFAULT_SLIPPAGE_TOLERANCE])]
  norm_num [btcRotMd, ROUND_TRIP_FEES_PERCENT]

/-- The best alternative to ETH in the rotation scenario is BTC. -/
lemma find_best_rot :
    find_best_opportunity scRot ["ETH", "BTC"] 1000 (some "ETH") =
      ⟨some "BTC", some (1/10), some btcRotMd, some (1/10)⟩ := by
  have hne : ¬ (("BTC" : String) = "ETH") := by decide
  simp [find_best_opportunity, find_best_aux, fetch_scRot_btc, calc_btcRot,
    gtBest, hne]

/-- Full evaluation of the rotation scenario under an execution environment
whose TWAP exit succeeds and whose TWAP entry fails: the cycle reports the
rotation entry failure and keeps the (score-updated) old ETH position in
state `POSITION_OPEN`. -/
lemma run_cycle_rot_eval :
    run_cycle_g scRot cfgRot ⟨false, true⟩ bRot 5000 =
      ({ bRot with
          currentPosition :=
            some ({ posRot with currentScoreOfPosition := some (-29/200) }) },
       CycleEvent.rotationEntryFailedAfterExit "ETH" "BTC") := by
  have h1000 : ¬ ((1000 : ℚ) = 0) := by norm_num
  have hbtcne : ¬ (("BTC" : String) = "") := by decide
  have hperp : ethRotMd.perpPrice = 6003/2 := rfl
  have hspot : ethRotMd.spotPrice = 3000 := rfl
  norm_num [run_cycle_g, runCycleOpen, runCycleOpenFresh,
    runCycleRotationOrDecay, bRot, posRot, cfgRot, hperp, hspot,
    fetch_scRot_eth, calc_ethRot, find_best_rot, scoreGtB, h1000, hbtcne,
    execute_immediate_exit_trade]

/-- C2 counterexample: in the rotation scenario with the exit succeeding and
the entry failing, the cycle does not end flat in `SEARCHING` with no
position; it stays in `POSITION_OPEN` still holding the old ETH position
record. -/
theorem rotation_entry_failure_cex :
    (run_cycle_g scRot cfgRot ⟨false, true⟩ bRot 5000).1.currentState =
      BotPhase.positionOpen ∧
    (run_cycle_g scRot cfgRot ⟨false, true⟩ bRot 5000).1.currentPosition.isSome
      = true ∧
    (run_cycle_g scRot cfgRot ⟨false, true⟩ bRot 5000).2 =
      CycleEvent.rotationEntryFailedAfterExit "ETH" "BTC" := by
  rw [run_cycle_rot_eval]
  exact ⟨rfl, rfl, rfl⟩

/-- The decay check never reports a rotation entry failure. -/
lemma runCycleDecay_event_ne (cfg : BotConfig) (env : ExecEnv) (b1 : BotState)
    (pa : String) (cs : ℚ) (o na : String) :
    (runCycleDecay cfg env b1 pa cs).2 ≠
      CycleEvent.rotationEntryFailedAfterExit o na := by
  unfold runCycleDecay
  split_ifs <;> simp

/-- If the rotation-or-decay step reports a rotation entry failure, the bot
state is returned unchanged and the reported old asset is the held one. -/
lemma runCycleRotationOrDecay_event (sc : SignalCalculator) (cfg : BotConfig)
    (env : ExecEnv) (b1 : BotState) (pa : String) (cs : ℚ) (now : ℚ)
    (o na : String) :
    (runCycleRotationOrDecay sc cfg env b1 pa cs now).2 =
      CycleEvent.rotationEntryFailedAfterExit o na →
    (runCycleRotationOrDecay sc cfg env b1 pa cs now).1 = b1 ∧ o = pa := by
  simp only [runCycleRotationOrDecay]
  split
  · split_ifs
    · intro h
      simp at h
    · intro h
      simp only [CycleEvent.rotationEntryFailedAfterExit.injEq] at h
      exact ⟨rfl, h.1.symm⟩
    · intro h
      simp at h
    · exact fun h => absurd h (runCycleDecay_event_ne cfg env b1 pa cs o na)
  · exact fun h => absurd h (runCycleDecay_event_ne cfg env b1 pa cs o na)

/-- If the fresh-snapshot branch reports a rotation entry failure, the
resulting state keeps the input phase and holds a position with the held
asset, which is also the reported old asset. -/
lemma runCycleOpenFresh_event (sc : SignalCalculator) (cfg : BotConfig)
    (env : ExecEnv) (b : BotState) (pos : Position) (ts : ℚ)
    (md : MarketData) (now : ℚ) (o na : String) :
    (runCycleOpenFresh sc cfg env b pos ts md now).2 =
      CycleEvent.rotationEntryFailedAfterExit o na →
    (runCycleOpenFresh sc cfg env b pos ts md now).1.currentState =
      b.currentState ∧
    (∃ p, (runCycleOpenFresh sc cfg env b pos ts md now).1.currentPosition =
      some p ∧ p.assetSymbol = pos.assetSymbol) ∧
    o = pos.assetSymbol := by
  simp only [runCycleOpenFresh]
  split_ifs <;>
    first
      | (intro h; simp at h)
      | (split <;>
          first
            | (intro h; simp at h)
            | (intro h
               obtain ⟨h1, h2⟩ :=
                 runCycleRotationOrDecay_event sc cfg env _ _ _ now o na h
               rw [h1]
               exact ⟨rfl, ⟨_, rfl, rfl⟩, h2⟩))

/-- The searching branch never reports a rotation entry failure. -/
lemma runCycleSearching_event_ne (sc : SignalCalculator) (cfg : BotConfig)
    (env : ExecEnv) (b : BotState) (now : ℚ) (o na : String) :
    (runCycleSearching sc cfg env b now).2 ≠
      CycleEvent.rotationEntryFailedAfterExit o na := by
  simp only [runCycleSearching]
  split
  · split_ifs <;> simp
  · simp

/-- In the implementation as written, the entry TWAP succeeds exactly when
the exit TWAP does: both outcomes are computed by `execute_twap_order` from
the same configured duration and interval count. -/
lemma actualExecEnv_entry_eq_exit (cfg : BotConfig) :
    (actualExecEnv cfg).twapEntryOk = (actualExecEnv cfg).twapExitOk := by
  show (execute_twap_order "ENTRY" cfg.tradeAmountUsd cfg.twapDurationMinutes
      cfg.twapNumIntervals).1 =
    (execute_twap_order "EXIT" cfg.tradeAmountUsd cfg.twapDurationMinutes
      cfg.twapNumIntervals).1
  unfold execute_twap_order
  split_ifs
  · rfl
  · rw [twapLoop_eq_schedule "ENTRY" _ _ (Or.inl rfl),
      twapLoop_eq_schedule "EXIT" _ _ (Or.inr rfl)]

/-- C2 amended: whenever a cycle reports the rotation exit-succeeded /
entry-failed outcome (possible only under a generalised execution
environment), the controller is left in `POSITION_OPEN` still holding the
old position record — not flat in `SEARCHING`; and in the implementation as
written this outcome is unreachable, because the entry TWAP succeeds
exactly when the exit TWAP does. -/
theorem rotation_entry_failure_keeps_state (sc : SignalCalculator)
    (cfg : BotConfig) (env : ExecEnv) (b : BotState) (now : ℚ) (o na : String)
    (h : (run_cycle_g sc cfg env b now).2 =
      CycleEvent.rotationEntryFailedAfterExit o na) :
    (run_cycle_g sc cfg env b now).1.currentState = BotPhase.positionOpen ∧
    (∃ p, (run_cycle_g sc cfg env b now).1.currentPosition = some p ∧
      p.assetSymbol = o) ∧
    (actualExecEnv cfg).twapEntryOk = (actualExecEnv cfg).twapExitOk := by
  refine ⟨?_, ?_, actualExecEnv_entry_eq_exit cfg⟩ <;>
  · obtain ⟨st, pos, ts⟩ := b
    cases st with
    | searching =>
      exact absurd h (runCycleSearching_event_ne sc cfg env _ now o na)
    | positionOpen =>
      cases pos with
      | none => simp [run_cycle_g] at h
      | some p =>
        cases ts with
        | none => simp [run_cycle_g] at h
        | some t =>
          simp only [run_cycle_g] at h ⊢
          split_ifs at h ⊢ with ht
          · simp only [runCycleOpen] at h ⊢
            cases hmd : fetch_market_data sc p.assetSymbol with
            | none =>
              simp [hmd, execute_immediate_exit_trade] at h
            | some md =>
              simp only [hmd] at h ⊢
              obtain ⟨e1, e2, e3⟩ :=
                runCycleOpenFresh_event sc cfg env _ p t md now o na h
              first
                | exact e1.trans rfl
                | (obtain ⟨pp, hpp, hpa⟩ := e2
                   exact ⟨pp, hpp, hpa.trans e3.symm⟩)

/-- Witness for C2: the amended statement applied to the concrete rotation
scenario. -/
theorem rotation_entry_failure_keeps_state_witness :
    (run_cycle_g scRot cfgRot ⟨false, true⟩ bRot 5000).1.currentState =
      BotPhase.positionOpen :=
  (rotation_entry_failure_keeps_state scRot cfgRot ⟨false, true⟩ bRot 5000
    "ETH" "BTC" (by rw [run_cycle_rot_eval])).1

/-- The searching branch reports no execution failure when the entry TWAP
outcome is success. -/
lemma runCycleSearching_event_ok (sc : SignalCalculator) (cfg : BotConfig)
    (env : ExecEnv) (b : BotState) (now : ℚ) (he : env.twapEntryOk = true) :
    isExecutionFailureEvent (runCycleSearching sc cfg env b now).2 = false := by
  simp only [runCycleSearching]
  split
  · split_ifs <;> rfl
  · rfl

/-- The decay check reports no execution failure when the exit TWAP outcome
is success. -/
lemma runCycleDecay_event_ok (cfg : BotConfig) (env : ExecEnv) (b1 : BotState)
    (pa : String) (cs : ℚ) (hx : env.twapExitOk = true) :
    isExecutionFailureEvent (runCycleDecay cfg env b1 pa cs).2 = false := by
  unfold runCycleDecay
  split_ifs <;> rfl

/-- The rotation-or-decay step reports no execution failure when both TWAP
outcomes are success. -/
lemma runCycleRotationOrDecay_event_ok (sc : SignalCalculator)
    (cfg : BotConfig) (env : ExecEnv) (b1 : BotState) (pa : String) (cs : ℚ)
    (now : ℚ) (he : env.twapEntryOk = true) (hx : env.twapExitOk = true) :
    isExecutionFailureEvent (runCycleRotationOrDecay sc cfg env b1 pa cs now).2
      = false := by
  simp only [runCycleRotationOrDecay]
  split
  · split_ifs <;>
      first
        | rfl
        | exact runCycleDecay_event_ok cfg env b1 pa cs hx
  · exact runCycleDecay_event_ok cfg env b1 pa cs hx

/-- The fresh-snapshot branch reports no execution failure when both TWAP
outcomes are success. -/
lemma runCycleOpenFresh_event_ok (sc : SignalCalculator) (cfg : BotConfig)
    (env : ExecEnv) (b : BotState) (pos : Position) (ts : ℚ)
    (md : MarketData) (now : ℚ)
    (he : env.twapEntryOk = true) (hx : env.twapExitOk = true) :
    isExecutionFailureEvent (runCycleOpenFresh sc cfg env b pos ts md now).2
      = false := by
  simp only [runCycleOpenFresh, execute_immediate_exit_trade,
    eq_self_iff_true, if_true]
  split_ifs <;>
    first
      | rfl
      | (split <;>
          first
            | rfl
            | exact runCycleRotationOrDecay_event_ok sc cfg env _ _ _ now he hx)

/-- The open branch reports no execution failure when both TWAP outcomes
are success. -/
lemma runCycleOpen_event_ok (sc : SignalCalculator) (cfg : BotConfig)
    (env : ExecEnv) (b : BotState) (pos : Position) (ts : ℚ) (now : ℚ)
    (he : env.twapEntryOk = true) (hx : env.twapExitOk = true) :
    isExecutionFailureEvent (runCycleOpen sc cfg env b pos ts now).2
      = false := by
  unfold runCycleOpen
  split
  · simp [execute_immediate_exit_trade, isExecutionFailureEvent]
  · exact runCycleOpenFresh_event_ok sc cfg env b pos ts _ now he hx

/-- A full cycle reports no execution failure when both TWAP outcomes are
success. -/
lemma run_cycle_g_event_ok (sc : SignalCalculator) (cfg : BotConfig)
    (env : ExecEnv) (b : BotState) (now : ℚ)
    (he : env.twapEntryOk = true) (hx : env.twapExitOk = true) :
    isExecutionFailureEvent (run_cycle_g sc cfg env b now).2 = false := by
  obtain ⟨st, pos, ts⟩ := b
  cases st with
  | searching => exact runCycleSearching_event_ok sc cfg env _ now he
  | positionOpen =>
    cases pos with
    | none => rfl
    | some p =>
      cases ts with
      | none => rfl
      | some t =>
        simp only [run_cycle_g]
        split_ifs
        · rfl
        · exact runCycleOpen_event_ok sc cfg env _ p t now he hx

/-- With valid TWAP parameters the configured entry outcome is success. -/
lemma actualExecEnv_entry_ok (cfg : BotConfig)
    (hn : 0 < cfg.twapNumIntervals) (hd : 0 < cfg.twapDurationMinutes) :
    (actualExecEnv cfg).twapEntryOk = true := by
  show (execute_twap_order "ENTRY" cfg.tradeAmountUsd cfg.twapDurationMinutes
      cfg.twapNumIntervals).1 = true
  rw [execute_twap_order_valid "ENTRY" _ _ _ (Or.inl rfl) hn hd]

/-- With valid TWAP parameters the configured exit outcome is success. -/
lemma actualExecEnv_exit_ok (cfg : BotConfig)
    (hn : 0 < cfg.twapNumIntervals) (hd : 0 < cfg.twapDurationMinutes) :
    (actualExecEnv cfg).twapExitOk = true := by
  show (execute_twap_order "EXIT" cfg.tradeAmountUsd cfg.twapDurationMinutes
      cfg.twapNumIntervals).1 = true
  rw [execute_twap_order_valid "EXIT" _ _ _ (Or.inr rfl) hn hd]

/-- C10: in this implementation no order submission can fail: for valid TWAP
parameters `execute_twap_order` returns true for both intents, the
immediate exit helper returns true unconditionally, and consequently no
`run_cycle` invocation with a validly configured TWAP ever reports an
execution-failure outcome (failed entry while searching, rotation abort on
exit failure, rotation entry failure after exit, or a failed decay,
liquidity or immediate exit). -/
theorem no_execution_failure_possible (tot d : ℚ) (n : ℤ) (a r : String)
    (sc : SignalCalculator) (cfg : BotConfig) (b : BotState) (now : ℚ) :
    (0 < n → 0 < d → (execute_twap_order "ENTRY" tot d n).1 = true) ∧
    (0 < n → 0 < d → (execute_twap_order "EXIT" tot d n).1 = true) ∧
    execute_immediate_exit_trade a r = true ∧
    (0 < cfg.twapNumIntervals → 0 < cfg.twapDurationMinutes →
      isExecutionFailureEvent (run_cycle sc cfg b now).2 = false) := by
  refine ⟨?_, ?_, rfl, ?_⟩
  · intro hn hd
    rw [execute_twap_order_valid "ENTRY" tot d n (Or.inl rfl) hn hd]
  · intro hn hd
    rw [execute_twap_order_valid "EXIT" tot d n (Or.inr rfl) hn hd]
  · intro hn hd
    exact run_cycle_g_event_ok sc cfg (actualExecEnv cfg) b now
      (actualExecEnv_entry_ok cfg hn hd) (actualExecEnv_exit_ok cfg hn hd)

/-- Witness for C10: the stop-loss scenario cycle (valid TWAP parameters)
reports no execution failure. -/
theorem no_execution_failure_possible_witness :
    isExecutionFailureEvent (run_cycle scStopLoss cfgStopLoss bStopLoss 1001).2
      = false :=
  (no_execution_failure_possible 1000 1 2 "ETH" "x" scStopLoss cfgStopLoss
    bStopLoss 1001).2.2.2 (by norm_num [cfgStopLoss]) (by norm_num [cfgStopLoss])
